import Mathlib

/-
Verification of the Foundation binding layer (src/src/lib.rs).

The Rust crate wraps opaque Objective-C object handles (type id, a raw
pointer) in transparent one-field structs and forwards every operation to
the native runtime via message sends. We embed the crate shallowly:

  - a handle (id) is a Nat, with nullId = 0 for the null pointer;
  - the native runtime is a NativeState: a NativeData record of per-class
    heaps (keyed by handle) plus a chronological trace of the message
    sends issued, so that forwarding behaviour is itself a provable fact;
  - each selector-exported method of the crate is one primitive that
    appends exactly one trace event and reads or updates the data;
  - the handwritten Rust methods (from_str, to_str, to_string, map,
    contains_key, get_documents_dir) are translated line by line as
    compositions of those primitives;
  - Rust panics (slice indexing, Result unwrap) surface as Option, with
    none marking the panic.

Per the specification, the native runtime is modelled as storing the
bytes passed to initWithBytes:length:encoding: and returning them from
UTF8String / lengthOfBytesUsingEncoding:.
-/

/-- Tests whether a byte is a UTF-8 continuation byte (0x80 to 0xBF). -/
def contByte (b : Nat) : Bool := decide (128 ≤ b ∧ b ≤ 191)

/-- Validity of a byte sequence as UTF-8, following RFC 3629: the same
predicate that the Rust standard library function std str from_utf8
decides. -/
def validUtf8 : List Nat → Bool
  | [] => true
  | b :: rest =>
    if b ≤ 127 then validUtf8 rest
    else if 194 ≤ b ∧ b ≤ 223 then
      match rest with
      | b1 :: r => contByte b1 && validUtf8 r
      | [] => false
    else if b = 224 then
      match rest with
      | b1 :: b2 :: r => decide (160 ≤ b1 ∧ b1 ≤ 191) && contByte b2 && validUtf8 r
      | _ => false
    else if (225 ≤ b ∧ b ≤ 236) ∨ b = 238 ∨ b = 239 then
      match rest with
      | b1 :: b2 :: r => contByte b1 && contByte b2 && validUtf8 r
      | _ => false
    else if b = 237 then
      match rest with
      | b1 :: b2 :: r => decide (128 ≤ b1 ∧ b1 ≤ 159) && contByte b2 && validUtf8 r
      | _ => false
    else if b = 240 then
      match rest with
      | b1 :: b2 :: b3 :: r => decide (144 ≤ b1 ∧ b1 ≤ 191) && contByte b2 && contByte b3 && validUtf8 r
      | _ => false
    else if 241 ≤ b ∧ b ≤ 243 then
      match rest with
      | b1 :: b2 :: b3 :: r => contByte b1 && contByte b2 && contByte b3 && validUtf8 r
      | _ => false
    else if b = 244 then
      match rest with
      | b1 :: b2 :: b3 :: r => decide (128 ≤ b1 ∧ b1 ≤ 143) && contByte b2 && contByte b3 && validUtf8 r
      | _ => false
    else false

/-- A Rust string slice: a byte sequence that is valid UTF-8. -/
abbrev Str := { bs : List Nat // validUtf8 bs = true }

/-- Embedding of std str from_utf8: succeeds exactly on valid UTF-8 and
returns a view of the same bytes. -/
def from_utf8 (bs : List Nat) : Option Str :=
  if h : validUtf8 bs = true then some ⟨bs, h⟩ else none

/-- The null pointer value of the raw handle type id. -/
def nullId : Nat := 0

/-- One native message send, recorded with its receiver, arguments and
returned value. -/
inductive Event where
  | allocStr (handle : Nat)
  | initBytes (recv : Nat) (bytes : List Nat) (length : Nat) (encoding : Nat) (ret : Nat)
  | utf8String (recv : Nat) (ret : List Nat)
  | lengthOfBytes (recv : Nat) (encoding : Nat) (ret : Nat)
  | objectForKey (recv : Nat) (key : Nat) (ret : Nat)
  | countMsg (recv : Nat) (ret : Nat)
  | objectAtIndex (recv : Nat) (index : Nat) (ret : Nat)
  | urlsForDirs (recv : Nat) (directory : Nat) (domainMask : Nat) (ret : Nat)
  | pathMsg (recv : Nat) (ret : Nat)
  | codeMsg (recv : Nat) (ret : Int)
  | locDesc (recv : Nat) (ret : Nat)
  deriving DecidableEq

/-- First-match association list lookup, used for every handle-keyed heap. -/
def lookupA {α β : Type} [DecidableEq α] (k : α) : List (α × β) → Option β
  | [] => none
  | p :: r => if p.1 = k then some p.2 else lookupA k r

/-- The data half of the native runtime: per-class heaps keyed by handle.
strs stores NSString byte contents; arrs stores NSArray element handles;
dflts stores, per NSUserDefaults handle, a map from key bytes (native
string keys compare by content) to the stored object handle; urlPaths
maps an NSURL handle to the NSString handle its path message returns;
fmDirs maps (file manager handle, directory, domain mask) to the NSArray
handle that URLsForDirectory:inDomains: returns; errCodes and errDescs
hold NSError responses; next is the next fresh handle. -/
structure NativeData where
  strs : List (Nat × List Nat)
  arrs : List (Nat × List Nat)
  dflts : List (Nat × List (List Nat × Nat))
  urlPaths : List (Nat × Nat)
  fmDirs : List ((Nat × Nat × Nat) × Nat)
  errCodes : List (Nat × Int)
  errDescs : List (Nat × Nat)
  next : Nat
  deriving DecidableEq

/-- The native runtime: its data plus the chronological trace of message
sends issued through the bindings. -/
structure NativeState where
  data : NativeData
  trace : List Event
  deriving DecidableEq

/-- Wrapper over a raw NSString handle, mirroring the transparent Rust
struct NSString(pub id). -/
structure NSString where
  raw : Nat
  deriving DecidableEq

/-- NSString alloc: returns a fresh uninitialized handle. -/
def NSString.alloc (s : NativeState) : NSString × NativeState :=
  (⟨s.data.next⟩,
   ⟨{ s.data with next := s.data.next + 1 }, s.trace ++ [Event.allocStr s.data.next]⟩)

/-- The selector-exported initWithBytes:length:encoding: message: the
native runtime stores the first length bytes of the buffer under the
receiver handle and returns the receiver. -/
def NSString.init_with_bytes_length_encoding (s : NativeState) (self : NSString)
    (bytes : List Nat) (length : Nat) (encoding : Nat) : NSString × NativeState :=
  (self,
   ⟨{ s.data with strs := (self.raw, bytes.take length) :: s.data.strs },
    s.trace ++ [Event.initBytes self.raw bytes length encoding self.raw]⟩)

/-- NSString from_str, translated from the Rust source: alloc, then
initWithBytes with the byte pointer of val, byte length val len, and the
UTF-8 encoding constant 4. -/
def NSString.from_str (s : NativeState) (val : Str) : NSString × NativeState :=
  let r1 := NSString.alloc s
  NSString.init_with_bytes_length_encoding r1.2 r1.1 val.val val.val.length 4

/-- The value the native UTF8String message returns: the stored bytes. -/
def NSString.utf8StringVal (d : NativeData) (self : NSString) : List Nat :=
  (lookupA self.raw d.strs).getD []

/-- The selector-exported UTF8String message. -/
def NSString.utf8_string (s : NativeState) (self : NSString) : List Nat × NativeState :=
  (NSString.utf8StringVal s.data self,
   { s with trace := s.trace ++ [Event.utf8String self.raw (NSString.utf8StringVal s.data self)] })

/-- The value the native lengthOfBytesUsingEncoding: message returns,
modelled per the specification as the length of the stored bytes. -/
def NSString.lengthOfBytesVal (d : NativeData) (self : NSString) (encoding : Nat) : Nat :=
  ((lookupA self.raw d.strs).getD []).length

/-- The selector-exported lengthOfBytesUsingEncoding: message. -/
def NSString.length_of_bytes_using_encoding (s : NativeState) (self : NSString)
    (encoding : Nat) : Nat × NativeState :=
  (NSString.lengthOfBytesVal s.data self encoding,
   { s with trace := s.trace ++ [Event.lengthOfBytes self.raw encoding (NSString.lengthOfBytesVal s.data self encoding)] })

/-- NSString to_str, translated from the Rust source: read the UTF8String
buffer, read the byte length for encoding 4, view the first length bytes
of the buffer, and unwrap the UTF-8 validation; none models the panic of
the unwrap. -/
def NSString.to_str (s : NativeState) (self : NSString) : Option Str × NativeState :=
  let r1 := NSString.utf8_string s self
  let r2 := NSString.length_of_bytes_using_encoding r1.2 self 4
  (from_utf8 (r1.1.take r2.1), r2.2)

/-- NSString to_string: an owned copy of to_str, same content. -/
def NSString.to_string (s : NativeState) (self : NSString) : Option Str × NativeState :=
  NSString.to_str s self

/-- Wrapper over a raw NSArray handle, mirroring NSArray(pub id). -/
structure NSArray where
  raw : Nat
  deriving DecidableEq

/-- The value the native count message returns: the number of elements
stored under the array handle. -/
def NSArray.countVal (d : NativeData) (self : NSArray) : Nat :=
  ((lookupA self.raw d.arrs).getD []).length

/-- The selector-exported count message. -/
def NSArray.count (s : NativeState) (self : NSArray) : Nat × NativeState :=
  (NSArray.countVal s.data self,
   { s with trace := s.trace ++ [Event.countMsg self.raw (NSArray.countVal s.data self)] })

/-- The value the native objectAtIndex: message returns: the element
handle stored at the index. -/
def NSArray.objectAtIndexVal (d : NativeData) (self : NSArray) (index : Nat) : Nat :=
  ((lookupA self.raw d.arrs).getD []).getD index nullId

/-- The selector-exported objectAtIndex: message. -/
def NSArray.object_at_index (s : NativeState) (self : NSArray) (index : Nat) : Nat × NativeState :=
  (NSArray.objectAtIndexVal s.data self index,
   { s with trace := s.trace ++ [Event.objectAtIndex self.raw index (NSArray.objectAtIndexVal s.data self index)] })

/-- The loop body of NSArray map: for each index in order, send
objectAtIndex: and apply the transform to the returned handle. -/
def NSArray.mapLoop {α : Type} (self : NSArray) (f : Nat → α) :
    List Nat → NativeState → List α × NativeState
  | [], s => ([], s)
  | i :: is, s =>
    let r1 := NSArray.object_at_index s self i
    let r2 := NSArray.mapLoop self f is r1.2
    (f r1.1 :: r2.1, r2.2)

/-- NSArray map, translated from the Rust source: read count, then map
the transform over indices 0 to count - 1 in ascending order, collecting
into a vector. -/
def NSArray.map {α : Type} (s : NativeState) (self : NSArray) (f : Nat → α) :
    List α × NativeState :=
  let r1 := NSArray.count s self
  NSArray.mapLoop self f (List.range r1.1) r1.2

/-- Wrapper over a raw NSUserDefaults handle, mirroring
NSUserDefaults(pub id). -/
structure NSUserDefaults where
  raw : Nat
  deriving DecidableEq

/-- The value the native objectForKey: message returns: the handle the
defaults store maps the key string contents to, or null. -/
def NSUserDefaults.objectForKeyVal (d : NativeData) (self : NSUserDefaults) (key : NSString) : Nat :=
  (lookupA ((lookupA key.raw d.strs).getD []) ((lookupA self.raw d.dflts).getD [])).getD nullId

/-- The selector-exported objectForKey: message. -/
def NSUserDefaults.object_for_key (s : NativeState) (self : NSUserDefaults) (key : NSString) :
    Nat × NativeState :=
  (NSUserDefaults.objectForKeyVal s.data self key,
   { s with trace := s.trace ++ [Event.objectForKey self.raw key.raw (NSUserDefaults.objectForKeyVal s.data self key)] })

/-- NSUserDefaults contains_key, translated from the Rust source:
marshal the key with from_str, send objectForKey:, and compare the
returned handle against the null pointer. -/
def NSUserDefaults.contains_key (s : NativeState) (self : NSUserDefaults) (key : Str) :
    Bool × NativeState :=
  let r1 := NSString.from_str s key
  let r2 := NSUserDefaults.object_for_key r1.2 self r1.1
  (if r2.1 ≠ nullId then true else false, r2.2)

/-- Wrapper over a raw NSError handle, mirroring NSError(pub id). -/
structure NSError where
  raw : Nat
  deriving DecidableEq

/-- The value the native code message returns. -/
def NSError.codeVal (d : NativeData) (self : NSError) : Int :=
  (lookupA self.raw d.errCodes).getD 0

/-- The selector-exported code message. -/
def NSError.code (s : NativeState) (self : NSError) : Int × NativeState :=
  (NSError.codeVal s.data self,
   { s with trace := s.trace ++ [Event.codeMsg self.raw (NSError.codeVal s.data self)] })

/-- The value the native localizedDescription message returns: an
NSString handle. -/
def NSError.locDescVal (d : NativeData) (self : NSError) : Nat :=
  (lookupA self.raw d.errDescs).getD nullId

/-- The selector-exported localizedDescription message. -/
def NSError.localized_description (s : NativeState) (self : NSError) : NSString × NativeState :=
  (⟨NSError.locDescVal s.data self⟩,
   { s with trace := s.trace ++ [Event.locDesc self.raw (NSError.locDescVal s.data self)] })

/-- Wrapper over a raw NSURL handle, mirroring NSURL(pub id). -/
structure NSURL where
  raw : Nat
  deriving DecidableEq

/-- The value the native path message returns: an NSString handle. -/
def NSURL.pathVal (d : NativeData) (self : NSURL) : Nat :=
  (lookupA self.raw d.urlPaths).getD nullId

/-- The selector-exported path message. -/
def NSURL.path (s : NativeState) (self : NSURL) : NSString × NativeState :=
  (⟨NSURL.pathVal s.data self⟩,
   { s with trace := s.trace ++ [Event.pathMsg self.raw (NSURL.pathVal s.data self)] })

/-- Wrapper over a raw NSFileManager handle, mirroring
NSFileManager(pub id). -/
structure NSFileManager where
  raw : Nat
  deriving DecidableEq

/-- Rust type alias NSSearchPathDirectory = NSUInteger. -/
abbrev NSSearchPathDirectory := Nat

/-- Rust type alias NSSearchPathDomainMask = NSUInteger. -/
abbrev NSSearchPathDomainMask := Nat

def NSSearchPathDirectory_NSApplicationDirectory : NSSearchPathDirectory := 1
def NSSearchPathDirectory_NSDemoApplicationDirectory : NSSearchPathDirectory := 2
def NSSearchPathDirectory_NSDeveloperApplicationDirectory : NSSearchPathDirectory := 3
def NSSearchPathDirectory_NSAdminApplicationDirectory : NSSearchPathDirectory := 4
def NSSearchPathDirectory_NSLibraryDirectory : NSSearchPathDirectory := 5
def NSSearchPathDirectory_NSDeveloperDirectory : NSSearchPathDirectory := 6
def NSSearchPathDirectory_NSUserDirectory : NSSearchPathDirectory := 7
def NSSearchPathDirectory_NSDocumentationDirectory : NSSearchPathDirectory := 8
def NSSearchPathDirectory_NSDocumentDirectory : NSSearchPathDirectory := 9
def NSSearchPathDirectory_NSCoreServiceDirectory : NSSearchPathDirectory := 10
def NSSearchPathDirectory_NSAutosavedInformationDirectory : NSSearchPathDirectory := 11
def NSSearchPathDirectory_NSDesktopDirectory : NSSearchPathDirectory := 12
def NSSearchPathDirectory_NSCachesDirectory : NSSearchPathDirectory := 13
def NSSearchPathDirectory_NSApplicationSupportDirectory : NSSearchPathDirectory := 14
def NSSearchPathDirectory_NSDownloadsDirectory : NSSearchPathDirectory := 15
def NSSearchPathDirectory_NSInputMethodsDirectory : NSSearchPathDirectory := 16
def NSSearchPathDirectory_NSMoviesDirectory : NSSearchPathDirectory := 17
def NSSearchPathDirectory_NSMusicDirectory : NSSearchPathDirectory := 18
def NSSearchPathDirectory_NSPicturesDirectory : NSSearchPathDirectory := 19
def NSSearchPathDirectory_NSPrinterDescriptionDirectory : NSSearchPathDirectory := 20
def NSSearchPathDirectory_NSSharedPublicDirectory : NSSearchPathDirectory := 21
def NSSearchPathDirectory_NSPreferencePanesDirectory : NSSearchPathDirectory := 22
def NSSearchPathDirectory_NSApplicationScriptsDirectory : NSSearchPathDirectory := 23
def NSSearchPathDirectory_NSItemReplacementDirectory : NSSearchPathDirectory := 99
def NSSearchPathDirectory_NSAllApplicationsDirectory : NSSearchPathDirectory := 100
def NSSearchPathDirectory_NSAllLibrariesDirectory : NSSearchPathDirectory := 101
def NSSearchPathDirectory_NSTrashDirectory : NSSearchPathDirectory := 102
def NSSearchPathDomainMask_NSUserDomainMask : NSSearchPathDomainMask := 1
def NSSearchPathDomainMask_NSLocalDomainMask : NSSearchPathDomainMask := 2
def NSSearchPathDomainMask_NSNetworkDomainMask : NSSearchPathDomainMask := 4
def NSSearchPathDomainMask_NSSystemDomainMask : NSSearchPathDomainMask := 8
def NSSearchPathDomainMask_NSAllDomainsMask : NSSearchPathDomainMask := 65535

/-- The value the native URLsForDirectory:inDomains: message returns: an
NSArray handle. -/
def NSFileManager.urlsForDirsVal (d : NativeData) (self : NSFileManager)
    (directory : NSSearchPathDirectory) (domainMask : NSSearchPathDomainMask) : Nat :=
  (lookupA (self.raw, directory, domainMask) d.fmDirs).getD nullId

/-- The selector-exported URLsForDirectory:inDomains: message. -/
def NSFileManager.urls_for_directory_in_domains (s : NativeState) (self : NSFileManager)
    (directory : NSSearchPathDirectory) (domainMask : NSSearchPathDomainMask) :
    NSArray × NativeState :=
  (⟨NSFileManager.urlsForDirsVal s.data self directory domainMask⟩,
   { s with trace := s.trace ++ [Event.urlsForDirs self.raw directory domainMask (NSFileManager.urlsForDirsVal s.data self directory domainMask)] })

/-- A Rust PathBuf, built from a path string. -/
structure PathBuf where
  path : Str
  deriving DecidableEq

/-- NSFileManager get_documents_dir, translated from the Rust source:
send URLsForDirectory:inDomains: with the document-directory and
user-domain constants, map the returned array into NSURL wrappers, index
element 0 of the vector (none models the out-of-bounds panic on an empty
vector), take its path string and build a PathBuf from it (none also
models the unwrap panic inside to_string). -/
def NSFileManager.get_documents_dir (s : NativeState) (self : NSFileManager) :
    Option PathBuf × NativeState :=
  let r1 := NSFileManager.urls_for_directory_in_domains s self
    NSSearchPathDirectory_NSDocumentDirectory NSSearchPathDomainMask_NSUserDomainMask
  let r2 := NSArray.map r1.2 r1.1 (fun val => NSURL.mk val)
  match r2.1 with
  | [] => (none, r2.2)
  | u :: _ =>
    let r3 := NSURL.path r2.2 u
    let r4 := NSString.to_string r3.2 r3.1
    (r4.1.map (fun ps => PathBuf.mk ps), r4.2)

/-- The derived Clone of the transparent struct NSString: a fieldwise
copy of the raw pointer, with no native call and no retain. -/
def NSString.clone (x : NSString) : NSString := ⟨x.raw⟩

/-- The derived Clone of NSArray. -/
def NSArray.clone (x : NSArray) : NSArray := ⟨x.raw⟩

/-- The derived Clone of NSUserDefaults. -/
def NSUserDefaults.clone (x : NSUserDefaults) : NSUserDefaults := ⟨x.raw⟩

/-- The derived Clone of NSError. -/
def NSError.clone (x : NSError) : NSError := ⟨x.raw⟩

/-- The derived Clone of NSURL. -/
def NSURL.clone (x : NSURL) : NSURL := ⟨x.raw⟩

/-- The derived Clone of NSFileManager. -/
def NSFileManager.clone (x : NSFileManager) : NSFileManager := ⟨x.raw⟩

/-- The GetObjcObject impl of NSString: returns the stored raw handle. -/
def NSString.objc_object (x : NSString) : Nat := x.raw

/-- The Deref impl of NSString: the address it dereferences is the stored
raw pointer, taken unconditionally with no null check. -/
def NSString.derefTarget (x : NSString) : Nat := x.raw

/-- An empty native runtime, used for concrete evaluations. -/
def emptyState : NativeState := ⟨⟨[], [], [], [], [], [], [], 0⟩, []⟩

/-- A concrete one-byte key string (the letter k). -/
def kStr : Str := ⟨[107], by decide⟩

/-- A runtime whose string heap holds one invalid UTF-8 byte under
handle 7. -/
def sBad : NativeState := ⟨⟨[(7, [255])], [], [], [], [], [], [], 8⟩, []⟩

/-- A runtime where file manager 1 has one document-directory URL
(handle 40) whose path string (handle 30) holds the bytes of /d. -/
def sDocs : NativeState :=
  ⟨⟨[(30, [47, 100])], [(20, [40])], [], [(40, 30)], [((1, 9, 1), 20)], [], [], 50⟩, []⟩

/-- A runtime where file manager 1 gets an empty URL array (handle 21)
for the documents directory. -/
def sNoDocs : NativeState :=
  ⟨⟨[], [(21, [])], [], [], [((1, 9, 1), 21)], [], [], 50⟩, []⟩

theorem lookupA_cons_self {α β : Type} [DecidableEq α] (k : α) (v : β) (l : List (α × β)) :
    lookupA k ((k, v) :: l) = some v := by
  simp [lookupA]

/-- Unfolding lemma for from_str: it allocates the next fresh handle,
stores the bytes of val under it, bumps the allocator, and records the
alloc and init message sends. -/
theorem from_str_spec (s : NativeState) (val : Str) :
    NSString.from_str s val =
      (⟨s.data.next⟩,
       ⟨{ s.data with
            strs := (s.data.next, val.val.take val.val.length) :: s.data.strs,
            next := s.data.next + 1 },
        s.trace ++ [Event.allocStr s.data.next,
                    Event.initBytes s.data.next val.val val.val.length 4 s.data.next]⟩) := by
  simp [NSString.from_str, NSString.alloc, NSString.init_with_bytes_length_encoding]

/-- Unfolding lemma for the map loop: over any index list it applies the
transform to the objectAtIndex value of each index, leaves the data
untouched, and appends one objectAtIndex event per index in order. -/
theorem mapLoop_spec {α : Type} (self : NSArray) (f : Nat → α) (is : List Nat) (s : NativeState) :
    NSArray.mapLoop self f is s =
      (is.map (fun i => f (NSArray.objectAtIndexVal s.data self i)),
       ⟨s.data, s.trace ++ is.map (fun i => Event.objectAtIndex self.raw i (NSArray.objectAtIndexVal s.data self i))⟩) := by
  induction is generalizing s with
  | nil => simp [NSArray.mapLoop]
  | cons i is ih =>
      simp [NSArray.mapLoop, NSArray.object_at_index, ih, List.append_assoc]

/-- Unfolding lemma for NSArray map: one count send, then one
objectAtIndex send per index from 0 to count - 1 in ascending order, and
the result list is the transform mapped over those returned handles. -/
theorem map_spec {α : Type} (s : NativeState) (self : NSArray) (f : Nat → α) :
    NSArray.map s self f =
      ((List.range (NSArray.countVal s.data self)).map
         (fun i => f (NSArray.objectAtIndexVal s.data self i)),
       ⟨s.data,
        s.trace ++ Event.countMsg self.raw (NSArray.countVal s.data self) ::
          (List.range (NSArray.countVal s.data self)).map
            (fun i => Event.objectAtIndex self.raw i (NSArray.objectAtIndexVal s.data self i))⟩) := by
  simp [NSArray.map, NSArray.count, mapLoop_spec]

/-- C1: for every Rust string slice s and every runtime state,
marshalling s into a native string with from_str and back with to_str
yields s again, the native runtime storing the UTF-8 bytes passed to
initWithBytes and returning them from UTF8String and
lengthOfBytesUsingEncoding. -/
theorem C1_from_str_to_str_roundtrip (s : NativeState) (val : Str) :
    (NSString.to_str (NSString.from_str s val).2 (NSString.from_str s val).1).1 = some val := by
  simp [from_str_spec, NSString.to_str, NSString.utf8_string,
        NSString.length_of_bytes_using_encoding, NSString.utf8StringVal,
        NSString.lengthOfBytesVal, lookupA_cons_self, List.take_length, from_utf8, val.2]

/-- C4: from_str allocates an NSString and sends exactly
initWithBytes:length:encoding: with the byte buffer of val, byte length
val len, and the UTF-8 encoding constant 4; it returns the handle the
init message returned, under which the runtime now stores the bytes. -/
theorem C4_from_str_sends_init_with_bytes (s : NativeState) (val : Str) :
    (NSString.from_str s val).2.trace =
      s.trace ++ [Event.allocStr s.data.next,
                  Event.initBytes s.data.next val.val val.val.length 4 s.data.next] ∧
    (NSString.from_str s val).1.raw = s.data.next ∧
    lookupA (NSString.from_str s val).1.raw (NSString.from_str s val).2.data.strs =
      some val.val := by
  refine ⟨?_, ?_, ?_⟩ <;>
    simp [from_str_spec, lookupA_cons_self, List.take_length]

/-- C6: to_str unconditionally unwraps the UTF-8 validation of the byte
buffer returned by UTF8String, truncated to the length reported by
lengthOfBytesUsingEncoding with encoding 4: if those bytes are valid
UTF-8 it returns exactly them as a string slice, and otherwise it
panics (none). -/
theorem C6_to_str_unwraps_utf8 (s : NativeState) (self : NSString) :
    (NSString.to_str s self).1 =
      (if h : validUtf8 ((NSString.utf8StringVal s.data self).take
          (NSString.lengthOfBytesVal s.data self 4)) = true
       then some ⟨(NSString.utf8StringVal s.data self).take
          (NSString.lengthOfBytesVal s.data self 4), h⟩
       else none) := by
  simp [NSString.to_str, NSString.utf8_string, NSString.length_of_bytes_using_encoding,
        from_utf8]

theorem C6_to_str_unwraps_utf8_witness : (NSString.to_str sBad ⟨7⟩).1 = none :=
  (C6_to_str_unwraps_utf8 sBad ⟨7⟩).trans (by decide)

/-- C3: map marshals the native collection into a host-language
sequence: the result has length count, its element at position i is the
transform applied to the objectAtIndex value at i, and the trace shows
one count send followed by objectAtIndex sends in ascending index order
from 0 to count - 1. -/
theorem C3_map_marshals_collection {α : Type} (s : NativeState) (a : NSArray) (f : Nat → α) :
    (NSArray.map s a f).1 =
      (List.range (NSArray.countVal s.data a)).map
        (fun i => f (NSArray.objectAtIndexVal s.data a i)) ∧
    (NSArray.map s a f).1.length = NSArray.countVal s.data a ∧
    (NSArray.map s a f).2.trace =
      s.trace ++ Event.countMsg a.raw (NSArray.countVal s.data a) ::
        (List.range (NSArray.countVal s.data a)).map
          (fun i => Event.objectAtIndex a.raw i (NSArray.objectAtIndexVal s.data a i)) := by
  refine ⟨?_, ?_, ?_⟩ <;> simp [map_spec]

/-- C5: contains_key returns true exactly when objectForKey: applied to
the from_str marshalling of the key returns a non-null handle,
equivalently when the defaults store maps the key bytes to a non-null
handle, and it never modifies the defaults store. -/
theorem C5_contains_key_iff_nonnull (s : NativeState) (self : NSUserDefaults) (key : Str) :
    ((NSUserDefaults.contains_key s self key).1 = true ↔
      (NSUserDefaults.object_for_key (NSString.from_str s key).2 self
        (NSString.from_str s key).1).1 ≠ nullId) ∧
    ((NSUserDefaults.contains_key s self key).1 = true ↔
      (lookupA key.val ((lookupA self.raw s.data.dflts).getD [])).getD nullId ≠ nullId) ∧
    (NSUserDefaults.contains_key s self key).2.data.dflts = s.data.dflts := by
  refine ⟨?_, ?_, ?_⟩ <;>
    simp [NSUserDefaults.contains_key, NSUserDefaults.object_for_key,
          NSUserDefaults.objectForKeyVal, from_str_spec, lookupA_cons_self,
          List.take_length]

/-- C7: NSError code and localizedDescription each issue exactly one
native message send, return exactly the value the native runtime reports
for that handle, and apply no inspection or transformation: the data of
the runtime is untouched and only the one send is recorded. -/
theorem C7_errors_passed_through (s : NativeState) (err : NSError) :
    NSError.code s err =
      (NSError.codeVal s.data err,
       ⟨s.data, s.trace ++ [Event.codeMsg err.raw (NSError.codeVal s.data err)]⟩) ∧
    NSError.localized_description s err =
      (⟨NSError.locDescVal s.data err⟩,
       ⟨s.data, s.trace ++ [Event.locDesc err.raw (NSError.locDescVal s.data err)]⟩) := by
  exact ⟨rfl, rfl⟩

/-- C2 counterexample: contains_key is a public method of a wrapper type
yet is not a single native message send: on a concrete empty runtime and
the key k it records three message sends (the alloc and init of the key
marshalling, then objectForKey:), not one. -/
theorem C2_counterexample_contains_key_three_sends :
    (NSUserDefaults.contains_key emptyState ⟨5⟩ kStr).2.trace.length = 3 ∧
    ¬ (NSUserDefaults.contains_key emptyState ⟨5⟩ kStr).2.trace.length = 1 := by
  decide

/-- C2 amended: each selector-exported method is one native message
send returning the native result unchanged with the runtime data
untouched, while the handwritten convenience methods compose several
such sends around marshalling logic: contains_key performs an alloc, an
init and an objectForKey: send followed by a null test, and map performs
a count send followed by one objectAtIndex: send per index. -/
theorem C2_amended_forwarding :
    (∀ (s : NativeState) (self : NSUserDefaults) (key : NSString),
      NSUserDefaults.object_for_key s self key =
        (NSUserDefaults.objectForKeyVal s.data self key,
         ⟨s.data, s.trace ++ [Event.objectForKey self.raw key.raw
            (NSUserDefaults.objectForKeyVal s.data self key)]⟩)) ∧
    (∀ (s : NativeState) (self : NSArray),
      NSArray.count s self =
        (NSArray.countVal s.data self,
         ⟨s.data, s.trace ++ [Event.countMsg self.raw (NSArray.countVal s.data self)]⟩)) ∧
    (∀ (s : NativeState) (self : NSArray) (i : Nat),
      NSArray.object_at_index s self i =
        (NSArray.objectAtIndexVal s.data self i,
         ⟨s.data, s.trace ++ [Event.objectAtIndex self.raw i
            (NSArray.objectAtIndexVal s.data self i)]⟩)) ∧
    (∀ (s : NativeState) (self : NSFileManager) (dir dom : Nat),
      NSFileManager.urls_for_directory_in_domains s self dir dom =
        (⟨NSFileManager.urlsForDirsVal s.data self dir dom⟩,
         ⟨s.data, s.trace ++ [Event.urlsForDirs self.raw dir dom
            (NSFileManager.urlsForDirsVal s.data self dir dom)]⟩)) ∧
    (∀ (s : NativeState) (self : NSUserDefaults) (key : Str),
      (NSUserDefaults.contains_key s self key).2.trace =
        s.trace ++ [Event.allocStr s.data.next,
                    Event.initBytes s.data.next key.val key.val.length 4 s.data.next,
                    Event.objectForKey self.raw s.data.next
                      (NSUserDefaults.objectForKeyVal
                        (NSString.from_str s key).2.data self (NSString.from_str s key).1)]) ∧
    (∀ (s : NativeState) (self : NSArray),
      (NSArray.map s self (fun v => v)).2.trace =
        s.trace ++ Event.countMsg self.raw (NSArray.countVal s.data self) ::
          (List.range (NSArray.countVal s.data self)).map
            (fun i => Event.objectAtIndex self.raw i (NSArray.objectAtIndexVal s.data self i))) := by
  refine ⟨fun s self key => rfl, fun s self => rfl, fun s self i => rfl,
          fun s self dir dom => rfl, fun s self key => ?_, fun s self => ?_⟩
  · simp [NSUserDefaults.contains_key, NSUserDefaults.object_for_key, from_str_spec]
  · simp [map_spec]

/-- C8: every wrapper is a transparent struct over a public raw handle:
a wrapper holding any pointer value, the null pointer included, can be
constructed; the derived Clone of each wrapper copies the raw pointer
with no retain; objc_object exposes the stored pointer; Deref targets
the stored pointer unconditionally; and no operation validates the
handle, to_str on a null-handle wrapper still issuing its two message
sends to the null receiver. -/
theorem C8_no_handle_invariants :
    (∀ n : Nat, (NSString.mk n).raw = n) ∧
    (NSString.mk nullId).raw = nullId ∧
    (∀ x : NSString, NSString.clone x = ⟨x.raw⟩) ∧
    (∀ x : NSArray, NSArray.clone x = ⟨x.raw⟩) ∧
    (∀ x : NSUserDefaults, NSUserDefaults.clone x = ⟨x.raw⟩) ∧
    (∀ x : NSError, NSError.clone x = ⟨x.raw⟩) ∧
    (∀ x : NSURL, NSURL.clone x = ⟨x.raw⟩) ∧
    (∀ x : NSFileManager, NSFileManager.clone x = ⟨x.raw⟩) ∧
    (∀ x : NSString, NSString.objc_object x = x.raw) ∧
    (∀ x : NSString, NSString.derefTarget x = x.raw) ∧
    (∀ s : NativeState, (NSString.to_str s ⟨nullId⟩).2.trace =
      s.trace ++ [Event.utf8String nullId (NSString.utf8StringVal s.data ⟨nullId⟩),
                  Event.lengthOfBytes nullId 4 (NSString.lengthOfBytesVal s.data ⟨nullId⟩ 4)]) := by
  refine ⟨fun n => rfl, rfl, fun x => rfl, fun x => rfl, fun x => rfl, fun x => rfl,
          fun x => rfl, fun x => rfl, fun x => rfl, fun x => rfl, fun s => ?_⟩
  simp [NSString.to_str, NSString.utf8_string, NSString.length_of_bytes_using_encoding]

/-- C10: the exported search-path directory constants run contiguously
from NSApplicationDirectory = 1 through NSApplicationScriptsDirectory =
23, followed by 99, 100, 101 and 102, and the domain-mask constants are
the powers of two 1, 2, 4, 8 with NSAllDomainsMask = 65535. -/
theorem C10_search_path_constants :
    NSSearchPathDirectory_NSApplicationDirectory = 1 ∧
    NSSearchPathDirectory_NSDemoApplicationDirectory = 2 ∧
    NSSearchPathDirectory_NSDeveloperApplicationDirectory = 3 ∧
    NSSearchPathDirectory_NSAdminApplicationDirectory = 4 ∧
    NSSearchPathDirectory_NSLibraryDirectory = 5 ∧
    NSSearchPathDirectory_NSDeveloperDirectory = 6 ∧
    NSSearchPathDirectory_NSUserDirectory = 7 ∧
    NSSearchPathDirectory_NSDocumentationDirectory = 8 ∧
    NSSearchPathDirectory_NSDocumentDirectory = 9 ∧
    NSSearchPathDirectory_NSCoreServiceDirectory = 10 ∧
    NSSearchPathDirectory_NSAutosavedInformationDirectory = 11 ∧
    NSSearchPathDirectory_NSDesktopDirectory = 12 ∧
    NSSearchPathDirectory_NSCachesDirectory = 13 ∧
    NSSearchPathDirectory_NSApplicationSupportDirectory = 14 ∧
    NSSearchPathDirectory_NSDownloadsDirectory = 15 ∧
    NSSearchPathDirectory_NSInputMethodsDirectory = 16 ∧
    NSSearchPathDirectory_NSMoviesDirectory = 17 ∧
    NSSearchPathDirectory_NSMusicDirectory = 18 ∧
    NSSearchPathDirectory_NSPicturesDirectory = 19 ∧
    NSSearchPathDirectory_NSPrinterDescriptionDirectory = 20 ∧
    NSSearchPathDirectory_NSSharedPublicDirectory = 21 ∧
    NSSearchPathDirectory_NSPreferencePanesDirectory = 22 ∧
    NSSearchPathDirectory_NSApplicationScriptsDirectory = 23 ∧
    NSSearchPathDirectory_NSItemReplacementDirectory = 99 ∧
    NSSearchPathDirectory_NSAllApplicationsDirectory = 100 ∧
    NSSearchPathDirectory_NSAllLibrariesDirectory = 101 ∧
    NSSearchPathDirectory_NSTrashDirectory = 102 ∧
    NSSearchPathDomainMask_NSUserDomainMask = 1 ∧
    NSSearchPathDomainMask_NSLocalDomainMask = 2 ∧
    NSSearchPathDomainMask_NSNetworkDomainMask = 4 ∧
    NSSearchPathDomainMask_NSSystemDomainMask = 8 ∧
    NSSearchPathDomainMask_NSAllDomainsMask = 65535 := by
  decide

/-- C9: get_documents_dir asks the file manager for the URLs of search
path directory 9 (the documents directory) in domain mask 1 (the user
domain) and indexes element 0 of the mapped URL vector without a guard:
when the returned native array is non-empty the result is a PathBuf
built from the path string of the first URL, and when it is empty the
indexing panics (none); the first message it sends is
URLsForDirectory:inDomains: with exactly those two constants. -/
theorem C9_get_documents_dir :
    NSSearchPathDirectory_NSDocumentDirectory = 9 ∧
    NSSearchPathDomainMask_NSUserDomainMask = 1 ∧
    (∀ (s : NativeState) (self : NSFileManager) (a e0 : Nat) (rest : List Nat)
       (p : Nat) (bytes : List Nat),
       lookupA (self.raw, 9, 1) s.data.fmDirs = some a →
       lookupA a s.data.arrs = some (e0 :: rest) →
       lookupA e0 s.data.urlPaths = some p →
       lookupA p s.data.strs = some bytes →
       ∀ (h5 : validUtf8 bytes = true),
       (NSFileManager.get_documents_dir s self).1 = some ⟨⟨bytes, h5⟩⟩) ∧
    (∀ (s : NativeState) (self : NSFileManager),
       (lookupA (NSFileManager.urlsForDirsVal s.data self 9 1) s.data.arrs).getD [] = [] →
       (NSFileManager.get_documents_dir s self).1 = none) ∧
    (∀ (s : NativeState) (self : NSFileManager), ∃ t,
       (NSFileManager.get_documents_dir s self).2.trace =
         s.trace ++ Event.urlsForDirs self.raw NSSearchPathDirectory_NSDocumentDirectory
           NSSearchPathDomainMask_NSUserDomainMask
           (NSFileManager.urlsForDirsVal s.data self NSSearchPathDirectory_NSDocumentDirectory
             NSSearchPathDomainMask_NSUserDomainMask) :: t) := by
  refine ⟨rfl, rfl, ?_, ?_, ?_⟩
  · intro s self a e0 rest p bytes h1 h2 h3 h4 h5
    simp [NSFileManager.get_documents_dir, NSFileManager.urls_for_directory_in_domains,
          NSFileManager.urlsForDirsVal, NSSearchPathDirectory_NSDocumentDirectory,
          NSSearchPathDomainMask_NSUserDomainMask, h1, map_spec, NSArray.countVal,
          NSArray.objectAtIndexVal, h2, List.range_succ_eq_map, NSURL.path, NSURL.pathVal,
          h3, NSString.to_string, NSString.to_str, NSString.utf8_string,
          NSString.length_of_bytes_using_encoding, NSString.utf8StringVal,
          NSString.lengthOfBytesVal, h4, from_utf8, h5, List.take_length]
  · intro s self h
    simp [NSFileManager.get_documents_dir, NSFileManager.urls_for_directory_in_domains,
          NSSearchPathDirectory_NSDocumentDirectory, NSSearchPathDomainMask_NSUserDomainMask,
          map_spec, NSArray.countVal, h]
  · intro s self
    simp only [NSFileManager.get_documents_dir, NSFileManager.urls_for_directory_in_domains,
               map_spec]
    cases hn : NSArray.countVal s.data
        ⟨NSFileManager.urlsForDirsVal s.data self NSSearchPathDirectory_NSDocumentDirectory
          NSSearchPathDomainMask_NSUserDomainMask⟩ with
    | zero =>
        simp only [List.range_zero, List.map_nil, List.append_assoc, List.cons_append,
                   List.nil_append, List.singleton_append]
        exact ⟨_, rfl⟩
    | succ m =>
        simp only [List.range_succ_eq_map, List.map_cons, NSURL.path, NSString.to_string,
                   NSString.to_str, NSString.utf8_string,
                   NSString.length_of_bytes_using_encoding, List.append_assoc,
                   List.cons_append, List.nil_append, List.singleton_append]
        exact ⟨_, rfl⟩

theorem C9_get_documents_dir_witness :
    (NSFileManager.get_documents_dir sDocs ⟨1⟩).1 = some ⟨⟨[47, 100], by decide⟩⟩ ∧
    (NSFileManager.get_documents_dir sNoDocs ⟨1⟩).1 = none :=
  ⟨C9_get_documents_dir.2.2.1 sDocs ⟨1⟩ 20 40 [] 30 [47, 100]
     (by decide) (by decide) (by decide) (by decide) (by decide),
   C9_get_documents_dir.2.2.2.1 sNoDocs ⟨1⟩ (by decide)⟩
